import Mathlib

/-!
Verification of the video-ingestion pipeline of `mypersonalnetflix`.

This file gives a shallow embedding of the core ingestion components:
the clip-timing selector (`VideoPreviewCreator._get_clip_timing_moviepy`
in `src/create_preview.py`), the deduplication store
(`DatabaseHelper.is_duplicate` / `save_to_database` in `src/db_helper.py`),
the two source adapters (`src/local_source.py`, `src/youtube_source.py`)
and the ingestion orchestrator (`VideoProcessor.process_url` in
`src/video_processor.py`).

Python floating-point durations are modelled as exact rationals; the
effects of the outside world (filesystem, network, subprocesses, the
SQLite connection) are passed in explicitly as environment records whose
fields record the outcome each effectful call would produce, so every
control-flow decision of the Python code is reproduced on those outcomes.
-/

namespace VideoIngest

/-! ### Clip-timing selector

Embedding of `VideoPreviewCreator._get_clip_timing_moviepy`
(`src/create_preview.py`).  The video duration probed from the file and
the target duration are the numeric inputs; `rand` stands for
`random.uniform`, which returns a value inside the closed interval given
by its arguments.  The Python code computes, for `video_duration` and
`target_duration`:

  start_threshold = video_duration * 0.2
  end_threshold   = video_duration * 0.8
  if video_duration <= target_duration: start 0, whole video
  else max_start = min(end_threshold - target_duration,
                       video_duration - target_duration)
       min_start = max(start_threshold, 0)
       start = 0 if max_start <= min_start
               else random.uniform(min_start, max_start)
       actual = min(target_duration, video_duration - start)
-/

def getClipTiming (videoDuration targetDuration : ℚ) (rand : ℚ → ℚ → ℚ) : ℚ × ℚ :=
  let startThreshold := videoDuration * (2 / 10)
  let endThreshold := videoDuration * (8 / 10)
  if videoDuration ≤ targetDuration then
    (0, videoDuration)
  else
    let maxStart := min (endThreshold - targetDuration) (videoDuration - targetDuration)
    let minStart := max startThreshold 0
    let startTime := if maxStart ≤ minStart then 0 else rand minStart maxStart
    (startTime, min targetDuration (videoDuration - startTime))

/-! ### Python string primitives

The source is Python, so the string operations it uses (`str.strip`,
`str.split`, `str.lower`, `str.startswith`, `int(...)`, `'\n'.join`,
`os.path.basename`, `os.path.splitext`) are embedded directly as
structurally recursive functions on `String`/`List Char`.  Unicode-only
differences (non-ASCII case folding, non-ASCII digits, underscores inside
Python integer literals) are outside the behaviour exercised here and are
noted where they occur. -/

/-- Python whitespace for `str.strip()`. -/
def isPySpace (c : Char) : Bool :=
  c = ' ' || c = '\t' || c = '\n' || c = '\r' || c = '\x0b' || c = '\x0c'

/-- Embedding of `s.strip()`: remove leading and trailing whitespace. -/
def pyStrip (s : String) : String :=
  String.mk (((s.data.dropWhile isPySpace).reverse.dropWhile isPySpace).reverse)

def splitNLAux : List Char → List Char → List String
  | [], acc => [String.mk acc.reverse]
  | c :: cs, acc =>
    if c = '\n' then String.mk acc.reverse :: splitNLAux cs []
    else splitNLAux cs (c :: acc)

/-- Embedding of `s.split('\n')`.  Like Python, this always returns at least one
element: splitting the empty string yields `[""]`. -/
def pySplitNL (s : String) : List String := splitNLAux s.data []

/-- Embedding of `s.lower()` (ASCII case folding). -/
def pyLower (s : String) : String := String.mk (s.data.map Char.toLower)

/-- Embedding of `s.startswith(pre)`. -/
def pyStartsWith (s pre : String) : Bool := pre.data.isPrefixOf s.data

/-- Everything after the first `':'`, i.e. `s.split(":", 1)[1]`;
`none` when the string holds no colon (where Python would raise). -/
def afterFirstColon (s : String) : Option String :=
  match s.data.dropWhile (fun c => c ≠ ':') with
  | [] => none
  | _ :: rest => some (String.mk rest)

def digitsToNat (ds : List Char) : Option Nat :=
  if ds.isEmpty then none
  else if ds.all (fun c => c.isDigit) then
    some (ds.foldl (fun n c => n * 10 + (c.toNat - 48)) 0)
  else none

/-- Embedding of `int(s)` on an already-stripped string: an optional single sign
followed by decimal digits; `none` models the `ValueError`. -/
def pyParseInt (s : String) : Option Int :=
  match s.data with
  | '-' :: ds => (digitsToNat ds).map (fun n => -(n : Int))
  | '+' :: ds => (digitsToNat ds).map (fun n => (n : Int))
  | ds => (digitsToNat ds).map (fun n => (n : Int))

/-- Embedding of `'\n'.join(ls)`. -/
def joinNL : List String → String
  | [] => ""
  | [x] => x
  | x :: xs => x ++ "\n" ++ joinNL xs

/-- Embedding of `os.path.basename(p)` (POSIX): the part after the last `'/'`. -/
def basename (p : String) : String :=
  String.mk ((p.data.reverse.takeWhile (fun c => c ≠ '/')).reverse)

/-- The stem of `os.path.splitext(name)` for a name without `'/'`:
cut at the last dot, unless every dot is a leading dot. -/
def splitextBase (name : String) : String :=
  let cs := name.data
  let afterLeadingDots := cs.dropWhile (fun c => c = '.')
  if afterLeadingDots.contains '.' then
    let extLen := (cs.reverse.takeWhile (fun c => c ≠ '.')).length
    String.mk (cs.take (cs.length - extLen - 1))
  else name

/-! ### Data model and deduplication store

`VideoInfo` mirrors the `video_info` dictionary built by
`VideoProcessor.process_url` and the columns of the `videos` table
(`src/db_helper.py`).  `DBState` models the SQLite database:
`conn` is whether `self.db_conn` is live, `rows` the table contents. -/

structure VideoInfo where
  user : String
  url : String
  source : String
  title : String
  description : String
  thumb_path : String
  vid_preview_path : String
  upload_year : Option Int
  content_hash : String
  preview_type : String
deriving Repr, DecidableEq

structure DBState where
  conn : Bool
  rows : List VideoInfo
deriving Repr, DecidableEq

/-- The URL branch of `DatabaseHelper.is_duplicate`:
`SELECT id FROM videos WHERE url = ?` found a row. -/
def urlMatch (rows : List VideoInfo) (url : String) : Bool :=
  rows.any (fun r => r.url = url)

/-- The content-hash branch of `DatabaseHelper.is_duplicate`: guarded by
Python truthiness `if content_hash:` (the candidate hash is non-empty),
then `SELECT id, url FROM videos WHERE content_hash = ?` found a row. -/
def hashMatch (rows : List VideoInfo) (contentHash : String) : Bool :=
  contentHash ≠ "" && rows.any (fun r => r.content_hash = contentHash)

/-- Embedding of `DatabaseHelper.is_duplicate`; `queryFails` models an exception
raised inside the `try` block (the method then returns `False`); a
missing connection also short-circuits to `False`. -/
def is_duplicate (db : DBState) (queryFails : Bool) (url contentHash : String) : Bool :=
  if !db.conn then false
  else if queryFails then false
  else if urlMatch db.rows url then true
  else if hashMatch db.rows contentHash then true
  else false

/-- Embedding of `DatabaseHelper.save_to_database`: with no connection or a raised
exception the record is not stored and `None` is returned; otherwise
`INSERT OR REPLACE` keyed on the `url UNIQUE` constraint deletes any row
with the same url and appends the new row, returning its rowid. -/
def save_to_database (db : DBState) (saveFails : Bool) (v : VideoInfo) :
    Option Nat × DBState :=
  if !db.conn then (none, db)
  else if saveFails then (none, db)
  else
    let newRows := db.rows.filter (fun r => r.url ≠ v.url) ++ [v]
    (some newRows.length, { db with rows := newRows })

def rowEmptyHash : VideoInfo :=
  { user := "alice", url := "file:///a.mp4", source := "local", title := "A"
    description := "", thumb_path := "", vid_preview_path := "alice/previews/A.gif"
    upload_year := some 2020, content_hash := "", preview_type := "gif" }

def rowWithHash : VideoInfo :=
  { user := "alice", url := "https://youtu.be/x", source := "youtube", title := "B"
    description := "", thumb_path := "", vid_preview_path := "alice/previews/B.mp4"
    upload_year := some 2021, content_hash := "deadbeef", preview_type := "mp4" }

/-! ### Source adapters

`FetchResult` mirrors the 5-tuple `(video_path, thumbnail_path, title,
description, upload_year)` returned by `download_video`; `none` models
the all-`None` tuple returned on failure. -/

structure FetchResult where
  videoPath : String
  thumbnailPath : Option String
  title : String
  description : String
  uploadYear : Option Int
deriving Repr, DecidableEq

/-- Outcomes of the effectful calls inside
`LocalFileSource.download_video` (`src/local_source.py`): existence of
the video file and of the sidecar `.txt`, the sidecar's raw content, the
calendar year of the file's mtime, whether the frame grab for the
thumbnail succeeds, and whether any other filesystem operation raises
(caught by the outer `except`, yielding the all-`None` tuple). -/
structure LocalEnv where
  fileExists : Bool
  sidecarExists : Bool
  sidecarContent : String
  mtimeYear : Int
  thumbExtractOk : Bool
  ioFails : Bool
deriving Repr, DecidableEq

/-- Embedding of `line.lower().startswith("year:")`. -/
def lineIsYear (l : String) : Bool := pyStartsWith (pyLower l) "year:"

/-- Embedding of `int(line.split(":", 1)[1].strip())`, with `none` for the
`ValueError` case. -/
def parseYearValue (line : String) : Option Int :=
  match afterFirstColon line with
  | none => none
  | some tail => pyParseInt (pyStrip tail)

/-- The year a metadata line contributes: `none` for non-`year:` lines
and for `year:` lines whose remainder does not parse. -/
def yearOfLine (l : String) : Option Int :=
  if lineIsYear l then parseYearValue l else none

/-- The `for line in lines[1:]` loop of `LocalFileSource.download_video`:
each `year:` line that parses overwrites `upload_year`; every `year:`
line (parsing or not) is withheld from `filtered_lines`; other lines are
appended. -/
def scanMetaLines : List String → Option Int → List String → Option Int × List String
  | [], year, acc => (year, acc.reverse)
  | line :: rest, year, acc =>
    if lineIsYear line then
      match parseYearValue line with
      | some n => scanMetaLines rest (some n) acc
      | none => scanMetaLines rest year acc
    else
      scanMetaLines rest year (line :: acc)

/-- Embedding of the title sanitizer
`"".join(c for c in video_title if c.isalnum() or c in ' ._-').strip()`
(ASCII alphanumerics). -/
def safeTitleLocal (title : String) : String :=
  pyStrip (String.mk (title.data.filter (fun c =>
    c.isAlphanum || c = ' ' || c = '.' || c = '_' || c = '-')))

/-- Embedding of `url.replace("file://", "")` applied as the code intends (the code
strips the scheme if present). -/
def stripFileScheme (url : String) : String :=
  if pyStartsWith url "file://" then String.mk (url.data.drop 7) else url

/-- Embedding of `LocalFileSource.download_video`.  The `[]` branch of the match on
the split lines mirrors `lines[0] if lines else base_name` and, exactly
as in Python (where `str.split` never returns an empty list), is dead
code.  The upload-year fallback mirrors `if not upload_year:`, which in
Python is taken both for `None` and for a parsed year `0`. -/
def localDownloadVideo (url outputDir : String) (env : LocalEnv) : Option FetchResult :=
  if env.ioFails then none
  else
    let filePath := stripFileScheme url
    if !env.fileExists then none
    else
      let fileName := basename filePath
      let baseName := splitextBase fileName
      let parsed :=
        if env.sidecarExists then
          match pySplitNL (pyStrip env.sidecarContent) with
          | [] => (baseName, "", (none : Option Int))
          | t :: rest =>
            let meta := scanMetaLines rest none []
            (t, joinNL meta.2, meta.1)
        else (baseName, "", (none : Option Int))
      let videoTitle := parsed.1
      let descriptionText := parsed.2.1
      let uploadYear : Int :=
        match parsed.2.2 with
        | some n => if n = 0 then env.mtimeYear else n
        | none => env.mtimeYear
      let safeTitle := safeTitleLocal videoTitle
      some { videoPath := outputDir ++ "/" ++ safeTitle ++ ".mp4"
             thumbnailPath :=
               if env.thumbExtractOk then
                 some (outputDir ++ "/" ++ safeTitle ++ "_thumbnail.jpg")
               else none
             title := videoTitle
             description := descriptionText
             uploadYear := some uploadYear }

def c6Env : LocalEnv :=
  { fileExists := true, sidecarExists := true,
    sidecarContent := "Title\nyear: 2001\nyear: 2002", mtimeYear := 1999,
    thumbExtractOk := true, ioFails := false }

def c7Env : LocalEnv :=
  { fileExists := true, sidecarExists := true, sidecarContent := "",
    mtimeYear := 2018, thumbExtractOk := true, ioFails := false }

/-- Outcomes of the effectful calls inside
`YouTubeSource.download_video` (`src/youtube_source.py`): whether the
`YouTube(url)` object and its metadata are obtained, the metadata
itself, whether a progressive mp4 stream exists, whether
`stream.download` succeeds, and whether the thumbnail HTTP GET returns
status 200. -/
structure YTEnv where
  metadataOk : Bool
  title : String
  description : String
  publishYear : Option Int
  streamFound : Bool
  downloadOk : Bool
  thumbHttpOk : Bool
deriving Repr, DecidableEq

/-- Embedding of the title sanitizer
`"".join(c for c in video_title if c.isalnum() or c in ' .-').strip()`
— note the YouTube variant does not keep underscores. -/
def safeTitleYT (title : String) : String :=
  pyStrip (String.mk (title.data.filter (fun c =>
    c.isAlphanum || c = ' ' || c = '.' || c = '-')))

/-- Embedding of `VideoSource.download_thumbnail` (`src/base_source.py`): returns the
output path on HTTP 200, `None` on a non-200 status or a raised
exception. -/
def download_thumbnail (httpOk : Bool) (outputPath : String) : Option String :=
  if httpOk then some outputPath else none

/-- Embedding of `YouTubeSource.download_video`.  The result of `download_thumbnail`
is bound and discarded exactly as in the source, which ignores the
helper's return value and hands back the constructed thumbnail path
unconditionally. -/
def ytDownloadVideo (url outputDir : String) (env : YTEnv) : Option FetchResult :=
  if !env.metadataOk then none
  else
    let safeTitle := safeTitleYT env.title
    if !env.streamFound then none
    else if !env.downloadOk then none
    else
      let outputPath := outputDir ++ "/" ++ safeTitle ++ ".mp4"
      let thumbnailPath := outputDir ++ "/" ++ safeTitle ++ "_thumbnail.jpg"
      let _thumbResult := download_thumbnail env.thumbHttpOk thumbnailPath
      some { videoPath := outputPath
             thumbnailPath := some thumbnailPath
             title := env.title
             description := env.description
             uploadYear := env.publishYear }

def ytEnvNoThumb : YTEnv :=
  { metadataOk := true, title := "Demo", description := "desc",
    publishYear := some 2022, streamFound := true, downloadOk := true,
    thumbHttpOk := false }

/-! ### Ingestion orchestrator

`VideoProcessor.process_url` (`src/video_processor.py`).  `ProcEnv`
carries the outcome every effectful sub-call would produce on this
ingestion: the name of the first registered source whose
`is_valid_url` accepts the locator (`none` when no source matches), the
source's `download_video` result, `generate_content_hash` of the
downloaded file, whether the duplicate query raises, the file names the
preview creators would produce inside the user's previews directory
(`none` on failure of all fallbacks of that preview kind), whether the
materialized video is a symlink, and whether the database save raises. -/

structure ProcEnv where
  url : String
  username : String
  sourceName : Option String
  fetch : Option FetchResult
  contentHash : String
  dupQueryFails : Bool
  mp4Name : Option String
  gifName : Option String
  videoIsSymlink : Bool
  saveFails : Bool
deriving Repr, DecidableEq

/-- Result of one `process_url` call: the returned record (`None` on
failure, duplicate skip or total preview failure), the database state
after the call, and the temp files the call deleted. -/
structure ProcResult where
  record : Option VideoInfo
  db : DBState
  deletedTemp : List String
deriving Repr, DecidableEq

/-- Relative path (`os.path.relpath`) of a file inside the user's previews directory
relative to the output root. -/
def previewRelPath (username fileName : String) : String :=
  username ++ "/previews/" ++ fileName

/-- Relative path (`os.path.relpath`) of the moved thumbnail relative to the output
root: the thumbnail keeps its basename and lands in the user's
thumbnails directory. -/
def thumbRelPath (username thumbPath : String) : String :=
  username ++ "/thumbnails/" ++ basename thumbPath

/-- Embedding of `VideoProcessor.process_url`.  Control flow of the source: empty
username aborts; no validating source aborts; a fetch without a video
path aborts; a duplicate deletes the downloaded temp artifacts and
returns no record; then both preview kinds are attempted, the temp
video is deleted unless it is a local-source symlink, the preview path
prefers mp4 over gif, and only a non-null preview path leads to building
`video_info`, saving it (ignoring the save's outcome) and returning it. -/
def process_url (env : ProcEnv) (db : DBState) : ProcResult :=
  if env.username = "" then ⟨none, db, []⟩
  else
    match env.sourceName with
    | none => ⟨none, db, []⟩
    | some sourceName =>
      match env.fetch with
      | none => ⟨none, db, []⟩
      | some fr =>
        if is_duplicate db env.dupQueryFails env.url env.contentHash then
          ⟨none, db, fr.videoPath :: fr.thumbnailPath.toList⟩
        else
          let deletedVideo :=
            if sourceName ≠ "local" || !env.videoIsSymlink then [fr.videoPath] else []
          let previewName :=
            match env.mp4Name with
            | some p => some p
            | none => env.gifName
          match previewName with
          | none => ⟨none, db, deletedVideo⟩
          | some previewFile =>
            let thumbPath :=
              match fr.thumbnailPath with
              | some t => thumbRelPath env.username t
              | none => ""
            let info : VideoInfo :=
              { user := env.username
                url := env.url
                source := sourceName
                title := fr.title
                description := fr.description
                thumb_path := thumbPath
                vid_preview_path := previewRelPath env.username previewFile
                upload_year := fr.uploadYear
                content_hash := env.contentHash
                preview_type := if env.mp4Name.isSome then "mp4" else "gif" }
            ⟨some info, (save_to_database db env.saveFails info).2, deletedVideo⟩

/-- The call got past username check, source selection, fetch and the
duplicate check, i.e. the encoding stage runs. -/
def reachesEncoding (env : ProcEnv) (db : DBState) : Prop :=
  env.username ≠ "" ∧ env.sourceName.isSome = true ∧ env.fetch.isSome = true ∧
  is_duplicate db env.dupQueryFails env.url env.contentHash = false

def envHappy : ProcEnv :=
  { url := "https://youtu.be/x", username := "alice", sourceName := some "youtube",
    fetch := some ⟨"alice/temp_videos/Demo.mp4",
      some "alice/temp_videos/Demo_thumbnail.jpg", "Demo", "desc", some 2022⟩,
    contentHash := "deadbeef", dupQueryFails := false,
    mp4Name := some "Demo_preview.mp4", gifName := none,
    videoIsSymlink := false, saveFails := false }

def dbEmpty : DBState := { conn := true, rows := [] }

def envSaveFail : ProcEnv := { envHappy with saveFails := true }

def firstRecord : VideoInfo :=
  { user := "alice", url := "https://youtu.be/x", source := "youtube",
    title := "Demo", description := "desc",
    thumb_path := "alice/thumbnails/Demo_thumbnail.jpg",
    vid_preview_path := "alice/previews/Demo_preview.mp4",
    upload_year := some 2022, content_hash := "deadbeef", preview_type := "mp4" }

/-- Claim C3: for positive total and target durations, and any draw of the
random source inside the interval it is given, the selected clip window
satisfies `0 ≤ start`, `start + duration ≤ totalDuration` and
`duration ≤ targetDuration`. -/
theorem clip_window_containment (vd td : ℚ) (rand : ℚ → ℚ → ℚ)
    (hvd : 0 < vd) (htd : 0 < td)
    (hrand : ∀ a b : ℚ, a < b → a ≤ rand a b ∧ rand a b ≤ b) :
    0 ≤ (getClipTiming vd td rand).1 ∧
    (getClipTiming vd td rand).1 + (getClipTiming vd td rand).2 ≤ vd ∧
    (getClipTiming vd td rand).2 ≤ td := by
  unfold getClipTiming
  by_cases hle : vd ≤ td
  · rw [if_pos hle]
    exact ⟨le_refl 0, by simpa using le_refl vd, hle⟩
  · rw [if_neg hle]
    dsimp only
    push_neg at hle
    by_cases hcol : min (vd * (8 / 10) - td) (vd - td) ≤ max (vd * (2 / 10)) 0
    · rw [if_pos hcol]
      refine ⟨le_refl 0, ?_, min_le_left _ _⟩
      have h1 : min td (vd - 0) ≤ vd - 0 := min_le_right _ _
      simp only at h1 ⊢
      linarith
    · rw [if_neg hcol]
      push_neg at hcol
      obtain ⟨h1, h2⟩ := hrand _ _ hcol
      have h0 : (0 : ℚ) ≤ max (vd * (2 / 10)) 0 := le_max_right _ _
      refine ⟨le_trans h0 h1, ?_, min_le_left _ _⟩
      have h3 : min td (vd - rand (max (vd * (2 / 10)) 0)
          (min (vd * (8 / 10) - td) (vd - td))) ≤
          vd - rand (max (vd * (2 / 10)) 0) (min (vd * (8 / 10) - td) (vd - td)) :=
        min_le_right _ _
      linarith

/-- Concrete instance of `clip_window_containment` at total duration 10,
target 3, with the random source returning the lower interval end. -/
theorem clip_window_containment_witness :
    0 ≤ (getClipTiming 10 3 (fun a _ => a)).1 ∧
    (getClipTiming 10 3 (fun a _ => a)).1 + (getClipTiming 10 3 (fun a _ => a)).2 ≤ 10 ∧
    (getClipTiming 10 3 (fun a _ => a)).2 ≤ 3 :=
  clip_window_containment 10 3 (fun a _ => a) (by norm_num) (by norm_num)
    (fun a b h => ⟨le_refl a, le_of_lt h⟩)

/-- Claim C8: when the safe window collapses (`maxStart ≤ minStart`) for a
video strictly longer than the target, the selector returns the window
`(0, targetDuration)` whatever the random source would do. -/
theorem collapsed_window_deterministic (vd td : ℚ) (rand : ℚ → ℚ → ℚ)
    (htd : 0 < td) (hvd : td < vd)
    (hcol : min (vd * (8 / 10) - td) (vd - td) ≤ max (vd * (2 / 10)) 0) :
    getClipTiming vd td rand = (0, td) := by
  unfold getClipTiming
  have hle : ¬vd ≤ td := not_le.mpr hvd
  rw [if_neg hle]
  dsimp only
  rw [if_pos hcol]
  have h : min td (vd - 0) = td := by
    rw [sub_zero]
    exact min_eq_left (le_of_lt hvd)
  rw [h]

theorem collapsed_window_deterministic_witness :
    getClipTiming 40 30 (fun _ b => b) = (0, 30) :=
  collapsed_window_deterministic 40 30 (fun _ b => b) (by norm_num) (by norm_num)
    (by norm_num)

/-- Claim C5: an empty fingerprint never matches through the content-hash
branch, whatever the stored rows hold; and any content-hash match forces
both the candidate's and the stored record's fingerprints to be
non-empty and equal. -/
theorem empty_fingerprint_no_hash_match (rows : List VideoInfo) (h : String) :
    hashMatch rows "" = false ∧
    (hashMatch rows h = true →
      h ≠ "" ∧ ∃ r ∈ rows, r.content_hash = h ∧ r.content_hash ≠ "") := by
  constructor
  · simp [hashMatch]
  · intro hm
    simp only [hashMatch, Bool.and_eq_true, decide_eq_true_eq, List.any_eq_true] at hm
    obtain ⟨hne, r, hr, hh⟩ := hm
    exact ⟨hne, r, hr, hh, by rw [hh]; exact hne⟩

/-- Concrete instance of `empty_fingerprint_no_hash_match`: against a
store holding a record with an empty fingerprint and one with
fingerprint `"deadbeef"`, the candidate hash `"deadbeef"` matches and
the matching stored fingerprint is forced non-empty. -/
theorem empty_fingerprint_no_hash_match_witness :
    "deadbeef" ≠ "" ∧ ∃ r ∈ [rowEmptyHash, rowWithHash],
      r.content_hash = "deadbeef" ∧ r.content_hash ≠ "" :=
  (empty_fingerprint_no_hash_match [rowEmptyHash, rowWithHash] "deadbeef").2 (by decide)

/-- Claim C9: when the connection is unavailable or the duplicate query raises,
`is_duplicate` returns `False` (fail-open), regardless of the stored
rows. -/
theorem dup_check_fail_open (db : DBState) (queryFails : Bool) (url contentHash : String)
    (h : db.conn = false ∨ queryFails = true) :
    is_duplicate db queryFails url contentHash = false := by
  rcases h with h | h <;> simp [is_duplicate, h]

/-- Concrete instance of `dup_check_fail_open`: the store holds a row
whose url equals the queried url, yet with the connection down the check
still reports no duplicate. -/
theorem dup_check_fail_open_witness :
    is_duplicate { conn := false, rows := [rowWithHash] } false
      "https://youtu.be/x" "deadbeef" = false :=
  dup_check_fail_open _ _ _ _ (Or.inl rfl)

theorem getLastQ_cons {α : Type} (a : α) (l : List α) :
    (a :: l).getLast? = some (l.getLast?.getD a) := by
  induction l generalizing a with
  | nil => rfl
  | cons b t ih =>
    rw [List.getLast?_cons_cons, ih b]
    rfl

/-- The final `upload_year` of the metadata loop is the last
successfully parsed `year:` line, or the incoming value when none
parses. -/
theorem scanMetaLines_year (ls : List String) (y : Option Int) (acc : List String) :
    (scanMetaLines ls y acc).1 =
      match (ls.filterMap yearOfLine).getLast? with
      | some n => some n
      | none => y := by
  induction ls generalizing y acc with
  | nil => rfl
  | cons line rest ih =>
    by_cases hy : lineIsYear line = true
    · cases hp : parseYearValue line with
      | none =>
        rw [scanMetaLines, if_pos hy, hp, ih]
        have hf : yearOfLine line = none := by rw [yearOfLine, if_pos hy, hp]
        rw [List.filterMap_cons, hf]
      | some n =>
        rw [scanMetaLines, if_pos hy, hp, ih]
        have hf : yearOfLine line = some n := by rw [yearOfLine, if_pos hy, hp]
        rw [List.filterMap_cons, hf, getLastQ_cons]
        cases hl : (rest.filterMap yearOfLine).getLast? <;> rfl
    · rw [scanMetaLines, if_neg hy, ih]
      have hf : yearOfLine line = none := by rw [yearOfLine, if_neg hy]
      rw [List.filterMap_cons, hf]

/-- The description built by the metadata loop is the newline-join of
exactly the lines not starting (case-insensitively) with `year:`. -/
theorem scanMetaLines_desc (ls : List String) (y : Option Int) (acc : List String) :
    (scanMetaLines ls y acc).2 =
      acc.reverse ++ ls.filter (fun l => !lineIsYear l) := by
  induction ls generalizing y acc with
  | nil => simp [scanMetaLines]
  | cons line rest ih =>
    by_cases hy : lineIsYear line = true
    · have hnot : (!lineIsYear line) = false := by rw [hy]; rfl
      cases hp : parseYearValue line with
      | none =>
        rw [scanMetaLines, if_pos hy, hp, ih, List.filter_cons, hnot]
        simp
      | some n =>
        rw [scanMetaLines, if_pos hy, hp, ih, List.filter_cons, hnot]
        simp
    · have hb : lineIsYear line = false := by
        revert hy
        cases lineIsYear line <;> simp
      have hnot : (!lineIsYear line) = true := by rw [hb]; rfl
      rw [scanMetaLines, if_neg hy, ih, List.filter_cons, hnot]
      simp

/-- Claim C6 counterexample: with a sidecar holding two `year:` lines, the code
returns upload year 2002 (the last parsed `year:` line), not 2001 (the
first), and the description is empty because every `year:` line is
excluded, where the claim would keep `"year: 2002"` in it. -/
theorem first_year_line_cex :
    (localDownloadVideo "clip.mp4" "out" c6Env).map FetchResult.uploadYear
        = some (some 2002) ∧
    (localDownloadVideo "clip.mp4" "out" c6Env).map FetchResult.uploadYear
        ≠ some (some 2001) ∧
    (localDownloadVideo "clip.mp4" "out" c6Env).map FetchResult.description = some "" ∧
    (localDownloadVideo "clip.mp4" "out" c6Env).map FetchResult.description
        ≠ some "year: 2002" :=
  ⟨by decide, by decide, by decide, by decide⟩

/-- Claim C6 (amended): when the sidecar splits into a title line plus further
lines, the upload year is the integer parsed from the remainder of the
*last* line whose lowercased form starts with `year:` and whose
remainder parses (here non-zero, else the mtime fallback fires); *every*
`year:`-prefixed line is excluded from the description; all other
non-title lines are newline-joined into the description. -/
theorem year_lines_last_wins (url outputDir : String) (env : LocalEnv)
    (hio : env.ioFails = false) (hex : env.fileExists = true)
    (hsc : env.sidecarExists = true)
    (title : String) (rest : List String)
    (hsplit : pySplitNL (pyStrip env.sidecarContent) = title :: rest)
    (n : Int) (hlast : (rest.filterMap yearOfLine).getLast? = some n) (hn : n ≠ 0) :
    (localDownloadVideo url outputDir env).map FetchResult.uploadYear = some (some n) ∧
    (localDownloadVideo url outputDir env).map FetchResult.description =
      some (joinNL (rest.filter (fun l => !lineIsYear l))) ∧
    (localDownloadVideo url outputDir env).map FetchResult.title = some title := by
  have hyear : (scanMetaLines rest none []).1 = some n := by
    rw [scanMetaLines_year, hlast]
  have hdesc : (scanMetaLines rest none []).2 = rest.filter (fun l => !lineIsYear l) := by
    rw [scanMetaLines_desc]
    simp
  simp only [localDownloadVideo, hio, hex, hsc, hsplit, Bool.not_true, if_false, if_true,
    ite_false, ite_true, hyear, hdesc, hn, Option.map_some]
  simp [hn]

/-- Concrete instance of `year_lines_last_wins` on the two-`year:`-line
sidecar: the last line wins and both `year:` lines leave the
description. -/
theorem year_lines_last_wins_witness :
    (localDownloadVideo "clip.mp4" "out" c6Env).map FetchResult.uploadYear
        = some (some 2002) ∧
    (localDownloadVideo "clip.mp4" "out" c6Env).map FetchResult.description =
      some (joinNL (["year: 2001", "year: 2002"].filter (fun l => !lineIsYear l))) ∧
    (localDownloadVideo "clip.mp4" "out" c6Env).map FetchResult.title = some "Title" :=
  year_lines_last_wins "clip.mp4" "out" c6Env rfl rfl rfl "Title"
    ["year: 2001", "year: 2002"] (by decide) 2002 (by decide) (by decide)

/-- Claim C7: with an existing but empty sidecar, the code produces the empty
string as title, not the base filename `"clip"` — the
`lines[0] if lines else base_name` fallback is dead because splitting
always yields at least `[""]`, so the claimed (and spec-intended)
base-filename fallback never fires. -/
theorem empty_sidecar_title_empty :
    (localDownloadVideo "clip.mp4" "out" c7Env).map FetchResult.title = some "" ∧
    splitextBase (basename "clip.mp4") = "clip" ∧
    ("" : String) ≠ "clip" :=
  ⟨by decide, by decide, by decide⟩

/-- Claim C10: a successful YouTube fetch always carries the constructed
thumbnail path (derived from the sanitized title inside the output
directory); the result is independent of whether the thumbnail HTTP
download succeeded; and, in contrast, a successful LocalFile fetch
whose frame extraction failed carries a null thumbnail path. -/
theorem yt_thumbnail_path_always_set (url outputDir : String) (env : YTEnv) :
    (∀ fr, ytDownloadVideo url outputDir env = some fr →
      fr.thumbnailPath =
        some (outputDir ++ "/" ++ safeTitleYT env.title ++ "_thumbnail.jpg")) ∧
    (∀ b, ytDownloadVideo url outputDir { env with thumbHttpOk := b } =
      ytDownloadVideo url outputDir env) ∧
    (∀ (lurl lout : String) (lenv : LocalEnv) (fr : FetchResult),
      lenv.thumbExtractOk = false →
      localDownloadVideo lurl lout lenv = some fr → fr.thumbnailPath = none) := by
  refine ⟨?_, ?_, ?_⟩
  · intro fr h
    unfold ytDownloadVideo at h
    by_cases h1 : env.metadataOk <;> by_cases h2 : env.streamFound <;>
      by_cases h3 : env.downloadOk <;> simp [h1, h2, h3] at h
    rw [← h]
  · intro b
    cases env
    rfl
  · intro lurl lout lenv fr hthumb h
    unfold localDownloadVideo at h
    by_cases h1 : lenv.ioFails <;> by_cases h2 : lenv.fileExists <;>
      simp [h1, h2, hthumb] at h
    rw [← h]

/-- Concrete instance of `yt_thumbnail_path_always_set`: with the
thumbnail HTTP download failing, the returned record still names the
thumbnail file that was never written. -/
theorem yt_thumbnail_path_always_set_witness :
    FetchResult.thumbnailPath
        ⟨"out/Demo.mp4", some "out/Demo_thumbnail.jpg", "Demo", "desc", some 2022⟩
      = some ("out" ++ "/" ++ safeTitleYT "Demo" ++ "_thumbnail.jpg") :=
  (yt_thumbnail_path_always_set "https://youtu.be/x" "out" ytEnvNoThumb).1
    ⟨"out/Demo.mp4", some "out/Demo_thumbnail.jpg", "Demo", "desc", some 2022⟩
    (by decide)

theorem previewRelPath_ne_empty (u p : String) : previewRelPath u p ≠ "" := by
  intro h
  have hlen := congrArg String.length h
  have h10 : ("/previews/" : String).length = 10 := rfl
  rw [previewRelPath, String.length_append, String.length_append, h10] at hlen
  simp at hlen

/-- Claim C1: a record is returned if and only if the encoding stage runs and
at least one of the two preview kinds succeeds; a returned record never
has an empty preview path; and (with a live connection and no save
failure) the returned record is persisted in the store. -/
theorem record_iff_preview (env : ProcEnv) (db : DBState) :
    ((process_url env db).record.isSome = true ↔
      reachesEncoding env db ∧
        (env.mp4Name.isSome = true ∨ env.gifName.isSome = true)) ∧
    (∀ v, (process_url env db).record = some v → v.vid_preview_path ≠ "") ∧
    (∀ v, (process_url env db).record = some v → db.conn = true →
      env.saveFails = false → v ∈ (process_url env db).db.rows) := by
  by_cases hu : env.username = ""
  · simp [process_url, hu, reachesEncoding]
  · cases hsrc : env.sourceName with
    | none => simp [process_url, hu, hsrc, reachesEncoding]
    | some s =>
      cases hf : env.fetch with
      | none => simp [process_url, hu, hsrc, hf, reachesEncoding]
      | some fr =>
        by_cases hdup : is_duplicate db env.dupQueryFails env.url env.contentHash = true
        · simp [process_url, hu, hsrc, hf, hdup, reachesEncoding]
        · have hdup2 : is_duplicate db env.dupQueryFails env.url env.contentHash = false := by
            revert hdup
            cases is_duplicate db env.dupQueryFails env.url env.contentHash <;> simp
          cases hm : env.mp4Name with
          | some p =>
            refine ⟨?_, ?_, ?_⟩
            · simp [process_url, hu, hsrc, hf, hdup2, hm, reachesEncoding]
            · intro v hv
              simp [process_url, hu, hsrc, hf, hdup2, hm] at hv
              subst hv
              exact previewRelPath_ne_empty _ _
            · intro v hv hconn hsave
              simp [process_url, hu, hsrc, hf, hdup2, hm] at hv ⊢
              subst hv
              simp [save_to_database, hconn, hsave]
          | none =>
            cases hg : env.gifName with
            | some p =>
              refine ⟨?_, ?_, ?_⟩
              · simp [process_url, hu, hsrc, hf, hdup2, hm, hg, reachesEncoding]
              · intro v hv
                simp [process_url, hu, hsrc, hf, hdup2, hm, hg] at hv
                subst hv
                exact previewRelPath_ne_empty _ _
              · intro v hv hconn hsave
                simp [process_url, hu, hsrc, hf, hdup2, hm, hg] at hv ⊢
                subst hv
                simp [save_to_database, hconn, hsave]
            | none => simp [process_url, hu, hsrc, hf, hdup2, hm, hg, reachesEncoding]

/-- Concrete instance of `record_iff_preview`: a fully successful
YouTube ingestion into an empty store returns a record. -/
theorem record_iff_preview_witness :
    (process_url envHappy dbEmpty).record.isSome = true :=
  (record_iff_preview envHappy dbEmpty).1.mpr
    ⟨⟨by decide, rfl, rfl, by decide⟩, Or.inl rfl⟩

/-- Claim C2: the returned record does not depend on whether the store save
fails, and every ingestion reaching the persisting step (encoding ran
and a preview exists) returns a record. -/
theorem record_survives_save_failure (env : ProcEnv) (db : DBState) :
    (∀ b, (process_url { env with saveFails := b } db).record =
      (process_url env db).record) ∧
    (reachesEncoding env db →
      (env.mp4Name.isSome = true ∨ env.gifName.isSome = true) →
      (process_url env db).record.isSome = true) := by
  constructor
  · intro b
    by_cases hu : env.username = ""
    · simp [process_url, hu]
    · cases hsrc : env.sourceName with
      | none => simp [process_url, hu, hsrc]
      | some s =>
        cases hf : env.fetch with
        | none => simp [process_url, hu, hsrc, hf]
        | some fr =>
          by_cases hdup : is_duplicate db env.dupQueryFails env.url env.contentHash = true
          · simp [process_url, hu, hsrc, hf, hdup]
          · have hdup2 :
                is_duplicate db env.dupQueryFails env.url env.contentHash = false := by
              revert hdup
              cases is_duplicate db env.dupQueryFails env.url env.contentHash <;> simp
            cases hm : env.mp4Name with
            | some p => simp [process_url, hu, hsrc, hf, hdup2, hm]
            | none =>
              cases hg : env.gifName with
              | some p => simp [process_url, hu, hsrc, hf, hdup2, hm, hg]
              | none => simp [process_url, hu, hsrc, hf, hdup2, hm, hg]
  · intro hreach hprev
    obtain ⟨hu, hs, hf, hdup⟩ := hreach
    obtain ⟨s, hsrc⟩ := Option.isSome_iff_exists.mp hs
    obtain ⟨fr, hfr⟩ := Option.isSome_iff_exists.mp hf
    rcases hprev with hm | hg
    · obtain ⟨p, hmp⟩ := Option.isSome_iff_exists.mp hm
      simp [process_url, hu, hsrc, hfr, hdup, hmp]
    · cases hm2 : env.mp4Name with
      | some p => simp [process_url, hu, hsrc, hfr, hdup, hm2]
      | none =>
        obtain ⟨p, hgp⟩ := Option.isSome_iff_exists.mp hg
        simp [process_url, hu, hsrc, hfr, hdup, hm2, hgp]

/-- Concrete instance of `record_survives_save_failure`: the happy-path
ingestion with the database save raising still returns a record. -/
theorem record_survives_save_failure_witness :
    (process_url envSaveFail dbEmpty).record.isSome = true :=
  (record_survives_save_failure envSaveFail dbEmpty).2
    ⟨by decide, rfl, rfl, by decide⟩ (Or.inl rfl)

/-- A successful `process_url` call returns a record carrying the
ingested locator, and its final database state is the result of saving
that record. -/
theorem process_url_success_shape (env : ProcEnv) (db : DBState) (v : VideoInfo)
    (h : (process_url env db).record = some v) :
    v.url = env.url ∧
    (process_url env db).db = (save_to_database db env.saveFails v).2 := by
  by_cases hu : env.username = ""
  · simp [process_url, hu] at h
  · cases hsrc : env.sourceName with
    | none => simp [process_url, hu, hsrc] at h
    | some s =>
      cases hf : env.fetch with
      | none => simp [process_url, hu, hsrc, hf] at h
      | some fr =>
        by_cases hdup : is_duplicate db env.dupQueryFails env.url env.contentHash = true
        · simp [process_url, hu, hsrc, hf, hdup] at h
        · have hdup2 :
              is_duplicate db env.dupQueryFails env.url env.contentHash = false := by
            revert hdup
            cases is_duplicate db env.dupQueryFails env.url env.contentHash <;> simp
          cases hm : env.mp4Name with
          | some p =>
            simp [process_url, hu, hsrc, hf, hdup2, hm] at h
            subst h
            exact ⟨rfl, by simp [process_url, hu, hsrc, hf, hdup2, hm]⟩
          | none =>
            cases hg : env.gifName with
            | some p =>
              simp [process_url, hu, hsrc, hf, hdup2, hm, hg] at h
              subst h
              exact ⟨rfl, by simp [process_url, hu, hsrc, hf, hdup2, hm, hg]⟩
            | none => simp [process_url, hu, hsrc, hf, hdup2, hm, hg] at h

/-- Claim C4: after a first successful ingestion of a locator (live
connection, save not failing), a second call for the same locator with
the source available again is short-circuited by the duplicate check: it
returns no record, leaves the store untouched, deletes its freshly
downloaded temp artifacts, and the store holds exactly one record for
that locator. -/
theorem dedup_idempotent (env1 env2 : ProcEnv) (db : DBState) (v : VideoInfo)
    (fr2 : FetchResult)
    (h1 : (process_url env1 db).record = some v)
    (hconn : db.conn = true) (hsave : env1.saveFails = false)
    (hurl : env2.url = env1.url) (husr : env2.username ≠ "")
    (hsrc2 : env2.sourceName.isSome = true) (hf2 : env2.fetch = some fr2)
    (hq2 : env2.dupQueryFails = false) :
    (process_url env2 (process_url env1 db).db).record = none ∧
    (process_url env2 (process_url env1 db).db).db = (process_url env1 db).db ∧
    (process_url env2 (process_url env1 db).db).deletedTemp =
      fr2.videoPath :: fr2.thumbnailPath.toList ∧
    ((process_url env1 db).db.rows.filter (fun r => r.url = env1.url)).length = 1 := by
  obtain ⟨hvurl, hdb⟩ := process_url_success_shape env1 db v h1
  have hdb1 : (process_url env1 db).db =
      { conn := db.conn, rows := db.rows.filter (fun r => r.url ≠ v.url) ++ [v] } := by
    rw [hdb, hsave]
    simp [save_to_database, hconn]
  obtain ⟨s2, hs2⟩ := Option.isSome_iff_exists.mp hsrc2
  have main : ∀ db1 : DBState,
      db1 = { conn := db.conn,
              rows := db.rows.filter (fun r => r.url ≠ v.url) ++ [v] } →
      (process_url env2 db1).record = none ∧
      (process_url env2 db1).db = db1 ∧
      (process_url env2 db1).deletedTemp =
        fr2.videoPath :: fr2.thumbnailPath.toList ∧
      (db1.rows.filter (fun r => r.url = env1.url)).length = 1 := by
    intro db1 hdef
    have hconn1 : db1.conn = true := by
      rw [hdef]
      exact hconn
    have hum : urlMatch db1.rows env2.url = true := by
      unfold urlMatch
      rw [List.any_eq_true]
      refine ⟨v, ?_, by simp [hvurl, hurl]⟩
      rw [hdef]
      simp
    have hdup2 : is_duplicate db1 env2.dupQueryFails env2.url env2.contentHash = true := by
      simp [is_duplicate, hconn1, hq2, hum]
    have hcall2 : process_url env2 db1 =
        ⟨none, db1, fr2.videoPath :: fr2.thumbnailPath.toList⟩ := by
      simp [process_url, husr, hs2, hf2, hdup2]
    refine ⟨by rw [hcall2], by rw [hcall2], by rw [hcall2], ?_⟩
    rw [hdef]
    simp only [List.filter_append, List.length_append]
    have hleft : (db.rows.filter (fun r => r.url ≠ v.url)).filter
        (fun r => r.url = env1.url) = [] := by
      rw [List.filter_eq_nil]
      intro r hr
      rw [List.mem_filter] at hr
      simp only [decide_eq_true_eq]
      intro hequ
      have hne := hr.2
      rw [hequ, ← hvurl] at hne
      simp at hne
    rw [hleft]
    simp [List.filter, hvurl]
  exact main _ hdb1

/-- Concrete instance of `dedup_idempotent`: running the happy-path
ingestion twice on an empty store leaves one stored record, and the
second run returns nothing while deleting its downloaded temp files. -/
theorem dedup_idempotent_witness :
    (process_url envHappy (process_url envHappy dbEmpty).db).record = none ∧
    (process_url envHappy (process_url envHappy dbEmpty).db).db =
      (process_url envHappy dbEmpty).db ∧
    (process_url envHappy (process_url envHappy dbEmpty).db).deletedTemp =
      "alice/temp_videos/Demo.mp4" ::
        (some "alice/temp_videos/Demo_thumbnail.jpg").toList ∧
    ((process_url envHappy dbEmpty).db.rows.filter
      (fun r => r.url = "https://youtu.be/x")).length = 1 :=
  dedup_idempotent envHappy envHappy dbEmpty firstRecord
    ⟨"alice/temp_videos/Demo.mp4", some "alice/temp_videos/Demo_thumbnail.jpg",
      "Demo", "desc", some 2022⟩
    (by decide) rfl rfl rfl (by decide) rfl rfl rfl

end VideoIngest
